import Mathlib

/-!
Shallow embedding of `solution.py` (Pomelo credit-account summarizer).

The Python program replays credit-card lifecycle events against an in-memory
ledger.  Pure state is modelled explicitly: every mutating Python method
becomes a function `State → ... → Except LedgerError State`; raising
`ValueError`/`TypeError` becomes returning `.error e`.  Python's stable
`list.sort(key=...)` is modelled with `List.insertionSort` (a stable sort)
over the corresponding key relation; `list.sort(key=..., reverse=True)` is
the stable sort for the reversed key relation.
-/

namespace Pomelo

/-- The higher-level class of a transaction (`TransactionClass` in the source). -/
inductive TransactionClass
  | CREDIT
  | PAYMENT
  deriving DecidableEq, Repr

/-- The type of transaction (`TransactionType` in the source). -/
inductive TransactionType
  | AUTHED
  | SETTLED
  | AUTH_CLEARED
  | PAYMENT_INIT
  | PAYMENT_POSTED
  | PAYMENT_CANCELED
  deriving DecidableEq, Repr

/-- `TransactionType.get_class`: AUTHED/SETTLED/AUTH_CLEARED are CREDIT,
the rest are PAYMENT. -/
def TransactionType.get_class : TransactionType → TransactionClass
  | .AUTHED => .CREDIT
  | .SETTLED => .CREDIT
  | .AUTH_CLEARED => .CREDIT
  | _ => .PAYMENT

/-- The errors the program can raise.  The source raises `ValueError` with a
message for all domain errors; we give each raise site its own tag.
`typeError` models Python's `TypeError` from arithmetic/comparison on `None`
(a missing amount reaching a site that needs an `int`). -/
inductive LedgerError
  | invalidLimit
  | invalidType
  | duplicateId
  | insufficientCredit
  | paymentExceedsBalance
  | noPendingMatch
  | classMismatch
  | typeError
  deriving DecidableEq, Repr

/-- `CreditCardTransaction`: `amount` is `Option Int` (`None` when the JSON
field was absent), `initial_time` is set only for settled txns. -/
structure CreditCardTransaction where
  txn_type : TransactionType
  txn_id : String
  time : Int
  amount : Option Int
  initial_time : Option Int
  deriving DecidableEq, Repr

/-- `CreditCardTransaction.record_pending_txn`: copy the pending txn's amount
only when this txn's own amount is `None`, and always take the pending txn's
time as `initial_time`. -/
def CreditCardTransaction.record_pending_txn
    (t p : CreditCardTransaction) : CreditCardTransaction :=
  { t with amount := t.amount.or p.amount, initial_time := some p.time }

/-- `TransactionType.parse`: exact-match table from event-type strings. -/
def TransactionType.parse (s : String) : Except LedgerError TransactionType :=
  if s = "TXN_AUTHED" then .ok .AUTHED
  else if s = "TXN_SETTLED" then .ok .SETTLED
  else if s = "TXN_AUTH_CLEARED" then .ok .AUTH_CLEARED
  else if s = "PAYMENT_INITIATED" then .ok .PAYMENT_INIT
  else if s = "PAYMENT_POSTED" then .ok .PAYMENT_POSTED
  else if s = "PAYMENT_CANCELED" then .ok .PAYMENT_CANCELED
  else .error .invalidType

/-- One raw JSON event record, already coerced to primitive values:
`amount = none` models an absent `amount` field. -/
structure RawTransaction where
  eventType : String
  txnId : String
  eventTime : Int
  amount : Option Int
  deriving DecidableEq, Repr

/-- `CreditCardTransaction.from_json`: parse the event type; the amount is
taken as-is when the field is present and left unset otherwise (no
missing-field check for any kind). -/
def CreditCardTransaction.from_json (r : RawTransaction) :
    Except LedgerError CreditCardTransaction :=
  (TransactionType.parse r.eventType).map fun ty =>
    { txn_type := ty, txn_id := r.txnId, time := r.eventTime,
      amount := r.amount, initial_time := none }

/-- `CreditAccount` mutable state (minus the already-consumed
`unprocessed_txns` queue).  `previos_txn_ids` is the seen-id set; only
membership and insertion are ever used, so a list suffices. -/
structure CreditAccount where
  credit_limit : Int
  available_credit : Int
  payable_balance : Int
  pending_txns : List CreditCardTransaction
  settled_txns : List CreditCardTransaction
  previos_txn_ids : List String
  deriving DecidableEq, Repr

/-- The state right after `CreditAccount.__init__` sets its fields, before
any transaction is processed. -/
def CreditAccount.initial (credit_limit : Int) : CreditAccount :=
  { credit_limit := credit_limit
    available_credit := credit_limit
    payable_balance := 0
    pending_txns := []
    settled_txns := []
    previos_txn_ids := [] }

/-- `CreditAccount._ensure_txn_id_unique`: fail on a seen id, otherwise
record the id (the source adds the id before any later check runs). -/
def CreditAccount.ensure_txn_id_unique (s : CreditAccount)
    (t : CreditCardTransaction) : Except LedgerError CreditAccount :=
  if t.txn_id ∈ s.previos_txn_ids then .error .duplicateId
  else .ok { s with previos_txn_ids := t.txn_id :: s.previos_txn_ids }

/-- `CreditAccount._find_pending`: first pending txn with a matching id
(`next(filter(...))`); fail when there is none or when the classes differ. -/
def CreditAccount.find_pending (s : CreditAccount)
    (t : CreditCardTransaction) : Except LedgerError CreditCardTransaction :=
  match s.pending_txns.find? (fun q => q.txn_id == t.txn_id) with
  | none => .error .noPendingMatch
  | some p =>
      if p.txn_type.get_class = t.txn_type.get_class then .ok p
      else .error .classMismatch

/-- `CreditAccount._process_txn`.  `pending_txns.remove(pending_txn)` removes
exactly the object `_find_pending` returned, i.e. the first entry with the
matching id, hence `eraseP` on the same predicate.  Arithmetic on a `None`
amount raises `TypeError` in Python, modelled as `.error .typeError`.  In the
SETTLED branch `txn.amount` has already been updated by `record_pending_txn`,
so the amount read afterwards is `t.amount.getD pa`. -/
def CreditAccount.process_txn (s : CreditAccount)
    (t : CreditCardTransaction) : Except LedgerError CreditAccount :=
  match t.txn_type with
  | .AUTHED =>
      match s.ensure_txn_id_unique t with
      | .error e => .error e
      | .ok s1 =>
          match t.amount with
          | none => .error .typeError
          | some a =>
              if s1.available_credit < a then .error .insufficientCredit
              else .ok { s1 with
                available_credit := s1.available_credit - a
                pending_txns := s1.pending_txns ++ [t] }
  | .SETTLED =>
      match s.find_pending t with
      | .error e => .error e
      | .ok p =>
          match p.amount with
          | none => .error .typeError
          | some pa =>
              .ok { s with
                available_credit := s.available_credit + pa - t.amount.getD pa
                payable_balance := s.payable_balance + t.amount.getD pa
                pending_txns :=
                  s.pending_txns.eraseP (fun q => q.txn_id == t.txn_id)
                settled_txns :=
                  s.settled_txns ++ [t.record_pending_txn p] }
  | .AUTH_CLEARED =>
      match s.find_pending t with
      | .error e => .error e
      | .ok p =>
          match p.amount with
          | none => .error .typeError
          | some pa =>
              .ok { s with
                available_credit := s.available_credit + pa
                pending_txns :=
                  s.pending_txns.eraseP (fun q => q.txn_id == t.txn_id) }
  | .PAYMENT_INIT =>
      match s.ensure_txn_id_unique t with
      | .error e => .error e
      | .ok s1 =>
          match t.amount with
          | none => .error .typeError
          | some a =>
              if s1.payable_balance < -a then .error .paymentExceedsBalance
              else .ok { s1 with
                payable_balance := s1.payable_balance + a
                pending_txns := s1.pending_txns ++ [t] }
  | .PAYMENT_POSTED =>
      match s.find_pending t with
      | .error e => .error e
      | .ok p =>
          match p.amount with
          | none => .error .typeError
          | some pa =>
              .ok { s with
                available_credit := s.available_credit - pa
                pending_txns :=
                  s.pending_txns.eraseP (fun q => q.txn_id == t.txn_id)
                settled_txns :=
                  s.settled_txns ++ [t.record_pending_txn p] }
  | .PAYMENT_CANCELED =>
      match s.find_pending t with
      | .error e => .error e
      | .ok p =>
          match p.amount with
          | none => .error .typeError
          | some pa =>
              .ok { s with
                payable_balance := s.payable_balance - pa
                pending_txns :=
                  s.pending_txns.eraseP (fun q => q.txn_id == t.txn_id) }

/-- `CreditAccount._process_txns`: apply the queue left to right, the first
error aborting the run. -/
def CreditAccount.process_txns (s : CreditAccount) :
    List CreditCardTransaction → Except LedgerError CreditAccount
  | [] => .ok s
  | t :: ts =>
      match s.process_txn t with
      | .error e => .error e
      | .ok s' => s'.process_txns ts

/-- Ascending-by-time key relation used by `CreditAccountRecord.__init__`'s
`txns.sort(key=lambda txn: txn.time)`. -/
def timeLE (a b : CreditCardTransaction) : Prop := a.time ≤ b.time

instance : DecidableRel timeLE :=
  fun a b => inferInstanceAs (Decidable (a.time ≤ b.time))

instance : IsTotal CreditCardTransaction timeLE :=
  ⟨fun a b => Int.le_total a.time b.time⟩

instance : IsTrans CreditCardTransaction timeLE :=
  ⟨fun _ _ _ h1 h2 => le_trans h1 h2⟩

/-- Descending-by-time key relation used by `get_summary`'s
`sort(key=lambda txn: txn.time, reverse=True)`. -/
def timeGE (a b : CreditCardTransaction) : Prop := b.time ≤ a.time

instance : DecidableRel timeGE :=
  fun a b => inferInstanceAs (Decidable (b.time ≤ a.time))

instance : IsTotal CreditCardTransaction timeGE :=
  ⟨fun a b => Int.le_total b.time a.time⟩

instance : IsTrans CreditCardTransaction timeGE :=
  ⟨fun _ _ _ h1 h2 => le_trans h2 h1⟩

/-- `CreditAccountRecord.__init__` followed by `process_account()`: reject a
non-positive limit, stable-sort the events ascending by time, then replay. -/
def process_account (credit_limit : Int)
    (txns : List CreditCardTransaction) : Except LedgerError CreditAccount :=
  if credit_limit ≤ 0 then .error .invalidLimit
  else (CreditAccount.initial credit_limit).process_txns
    (txns.insertionSort timeLE)

/-- `CreditAccountSummary` (the structured part, before string rendering). -/
structure CreditAccountSummary where
  available_credit : Int
  payable_balance : Int
  pending_txns : List CreditCardTransaction
  recent_settled_txns : List CreditCardTransaction
  deriving DecidableEq, Repr

/-- `CreditAccount.get_summary`: stable sort of the settled list descending
by resolve time, then the first three. -/
def CreditAccount.get_summary (s : CreditAccount) : CreditAccountSummary :=
  { available_credit := s.available_credit
    payable_balance := s.payable_balance
    pending_txns := s.pending_txns
    recent_settled_txns := (s.settled_txns.insertionSort timeGE).take 3 }

/-- Sum of the amounts (taking a missing amount as 0) of the transactions of
one class in a list; used to state the conservation invariant. -/
def sumOfClass (c : TransactionClass) :
    List CreditCardTransaction → Int
  | [] => 0
  | t :: ts =>
      (if t.txn_type.get_class = c then t.amount.getD 0 else 0) + sumOfClass c ts

/-- The corrected conservation invariant: available credit plus the pending
CREDIT amounts minus the pending PAYMENT amounts plus the payable balance
equals the credit limit. -/
def conserves (s : CreditAccount) : Prop :=
  s.available_credit + sumOfClass .CREDIT s.pending_txns
    - sumOfClass .PAYMENT s.pending_txns + s.payable_balance = s.credit_limit

instance {ε α : Type} [DecidableEq ε] [DecidableEq α] :
    DecidableEq (Except ε α)
  | .ok a, .ok b => decidable_of_iff (a = b) (by simp)
  | .error a, .error b => decidable_of_iff (a = b) (by simp)
  | .ok _, .error _ => isFalse (fun h => by cases h)
  | .error _, .ok _ => isFalse (fun h => by cases h)

end Pomelo

namespace Pomelo

/-! ### Helper lemmas about single-transaction processing -/

theorem ensure_txn_id_unique_ok {s : CreditAccount} {t : CreditCardTransaction}
    (h : t.txn_id ∉ s.previos_txn_ids) :
    s.ensure_txn_id_unique t =
      .ok { s with previos_txn_ids := t.txn_id :: s.previos_txn_ids } := by
  simp [CreditAccount.ensure_txn_id_unique, h]

theorem process_txn_authed {s : CreditAccount} {t : CreditCardTransaction}
    {a : Int} (h1 : t.txn_type = .AUTHED) (h2 : t.txn_id ∉ s.previos_txn_ids)
    (h3 : t.amount = some a) :
    s.process_txn t =
      if s.available_credit < a then .error .insufficientCredit
      else .ok { s with
        available_credit := s.available_credit - a
        pending_txns := s.pending_txns ++ [t]
        previos_txn_ids := t.txn_id :: s.previos_txn_ids } := by
  simp [CreditAccount.process_txn, h1, CreditAccount.ensure_txn_id_unique, h2, h3]

theorem process_txn_payment_init {s : CreditAccount} {t : CreditCardTransaction}
    {a : Int} (h1 : t.txn_type = .PAYMENT_INIT)
    (h2 : t.txn_id ∉ s.previos_txn_ids) (h3 : t.amount = some a) :
    s.process_txn t =
      if s.payable_balance < -a then .error .paymentExceedsBalance
      else .ok { s with
        payable_balance := s.payable_balance + a
        pending_txns := s.pending_txns ++ [t]
        previos_txn_ids := t.txn_id :: s.previos_txn_ids } := by
  simp [CreditAccount.process_txn, h1, CreditAccount.ensure_txn_id_unique, h2, h3]

/-! ### Claim theorems -/

/-- Claim C1, counterexample: a SETTLED event with explicit amount 250
resolving an opener of amount 100 produces a settled record whose amount is
250 — the resolving event's own amount, not the opener's 100 as the claim
states. -/
theorem C1_counterexample :
    (process_account 1000
      [⟨.AUTHED, "a1", 1, some 100, none⟩,
       ⟨.SETTLED, "a1", 2, some 250, none⟩]).map
        (fun s => s.settled_txns.map (fun t => t.amount)) = .ok [some 250] ∧
    some (250 : Int) ≠ some (100 : Int) := ⟨rfl, by decide⟩

/-- Claim C2, counterexample: after AUTHORIZED 100 then SETTLED 100 on a
limit-1000 account, `available_credit + sum(pending CREDIT amounts)` is
900, not the credit limit 1000. -/
theorem C2_counterexample :
    (process_account 1000
      [⟨.AUTHED, "a1", 1, some 100, none⟩,
       ⟨.SETTLED, "a1", 2, some 100, none⟩]).map
        (fun s => (s.available_credit + sumOfClass .CREDIT s.pending_txns,
                   s.credit_limit)) = .ok (900, 1000) ∧
    (900 : Int) ≠ 1000 := ⟨rfl, by decide⟩

/-- Claim C3, counterexample: two settled records with equal resolve time 5,
settled in order a1 then a2; the summary lists them as [a1, a2] — the
settlement-processing order, not its reverse as the claim states. -/
theorem C3_counterexample :
    (process_account 1000
      [⟨.AUTHED, "a1", 1, some 10, none⟩,
       ⟨.AUTHED, "a2", 2, some 20, none⟩,
       ⟨.SETTLED, "a1", 5, some 10, none⟩,
       ⟨.SETTLED, "a2", 5, some 20, none⟩]).map
        (fun s => (s.settled_txns.map (fun t => (t.txn_id, t.time)),
                   s.get_summary.recent_settled_txns.map (fun t => t.txn_id)))
      = .ok ([("a1", 5), ("a2", 5)], ["a1", "a2"]) ∧
    ["a1", "a2"] ≠ ["a2", "a1"] := ⟨rfl, by decide⟩

/-- Claim C5, counterexample: two permutations of the same two events with
equal timestamps (the stable sort keeps input order) leave the pending list
in different orders, so the final states are not identical. -/
theorem C5_counterexample :
    ([(⟨.AUTHED, "a1", 1, some 10, none⟩ : CreditCardTransaction),
      ⟨.AUTHED, "a2", 1, some 20, none⟩].Perm
     [⟨.AUTHED, "a2", 1, some 20, none⟩,
      ⟨.AUTHED, "a1", 1, some 10, none⟩]) ∧
    (process_account 1000
        [⟨.AUTHED, "a1", 1, some 10, none⟩,
         ⟨.AUTHED, "a2", 1, some 20, none⟩]).map
        (fun s => s.pending_txns.map (fun t => t.txn_id)) ≠
    (process_account 1000
        [⟨.AUTHED, "a2", 1, some 20, none⟩,
         ⟨.AUTHED, "a1", 1, some 10, none⟩]).map
        (fun s => s.pending_txns.map (fun t => t.txn_id)) := by
  exact ⟨by decide, by decide⟩

/-- Claim C9, counterexample: a raw TXN_AUTHED record with no amount field
parses successfully into an Event with amount unset — the parser does not
fail even though AUTHORIZED requires an amount. -/
theorem C9_counterexample :
    CreditCardTransaction.from_json ⟨"TXN_AUTHED", "a1", 1, none⟩ =
      .ok ⟨.AUTHED, "a1", 1, none, none⟩ := rfl

/-- Claim C10, counterexample: in the reachable state after AUTHORIZED 50 and
SETTLED 300 (available_credit = -200), an AUTHORIZED event with the negative
amount -150 and a fresh id is rejected with the insufficient-credit error,
so negative-amount authorizations are not always accepted. -/
theorem C10_counterexample :
    process_account 100
      [⟨.AUTHED, "a1", 1, some 50, none⟩,
       ⟨.SETTLED, "a1", 2, some 300, none⟩,
       ⟨.AUTHED, "a2", 3, some (-150), none⟩] = .error .insufficientCredit ∧
    (-150 : Int) < 0 := ⟨rfl, by decide⟩

/-- Claim C6: a PAYMENT_INITIATED event with an unused id fails with the
payment-exceeds-balance error exactly when `payable_balance < -amount`;
otherwise it adds the amount to `payable_balance`, appends the transaction
to the pending list, and records the id. -/
theorem C6_payment_initiated (s : CreditAccount) (t : CreditCardTransaction)
    (a : Int) (h1 : t.txn_type = .PAYMENT_INIT)
    (h2 : t.txn_id ∉ s.previos_txn_ids) (h3 : t.amount = some a) :
    (s.payable_balance < -a →
      s.process_txn t = .error .paymentExceedsBalance) ∧
    (-a ≤ s.payable_balance →
      s.process_txn t = .ok { s with
        payable_balance := s.payable_balance + a
        pending_txns := s.pending_txns ++ [t]
        previos_txn_ids := t.txn_id :: s.previos_txn_ids }) := by
  rw [process_txn_payment_init h1 h2 h3]
  constructor
  · intro h; rw [if_pos h]
  · intro h; rw [if_neg (not_lt.mpr h)]

/-- Claim C6, witness: with `payable_balance = 0`, PAYMENT_INITIATED with
amount -50 fails with the payment-exceeds-balance error. -/
theorem C6_witness :
    (CreditAccount.initial 1000).process_txn
      ⟨.PAYMENT_INIT, "p1", 2, some (-50), none⟩ =
      .error .paymentExceedsBalance :=
  (C6_payment_initiated (CreditAccount.initial 1000)
    ⟨.PAYMENT_INIT, "p1", 2, some (-50), none⟩ (-50) rfl (by decide) rfl).1
    (by decide)

/-- Claim C7: an AUTHORIZED event with an unused id succeeds exactly when
its amount is at most `available_credit` (decreasing `available_credit` by
the amount, appending to pending, recording the id), and fails with the
insufficient-credit error when the amount exceeds `available_credit`. -/
theorem C7_authorized (s : CreditAccount) (t : CreditCardTransaction)
    (a : Int) (h1 : t.txn_type = .AUTHED)
    (h2 : t.txn_id ∉ s.previos_txn_ids) (h3 : t.amount = some a) :
    (a ≤ s.available_credit →
      s.process_txn t = .ok { s with
        available_credit := s.available_credit - a
        pending_txns := s.pending_txns ++ [t]
        previos_txn_ids := t.txn_id :: s.previos_txn_ids }) ∧
    (s.available_credit < a →
      s.process_txn t = .error .insufficientCredit) := by
  rw [process_txn_authed h1 h2 h3]
  constructor
  · intro h; rw [if_neg (not_lt.mpr h)]
  · intro h; rw [if_pos h]

/-- Claim C7, witness: with credit limit 500, the single event AUTHORIZED
amount 600 fails with the insufficient-credit error. -/
theorem C7_witness :
    (CreditAccount.initial 500).process_txn
      ⟨.AUTHED, "a1", 1, some 600, none⟩ = .error .insufficientCredit ∧
    process_account 500 [⟨.AUTHED, "a1", 1, some 600, none⟩] =
      .error .insufficientCredit :=
  ⟨(C7_authorized (CreditAccount.initial 500)
      ⟨.AUTHED, "a1", 1, some 600, none⟩ 600 rfl (by decide) rfl).2
      (by decide), rfl⟩

/-- Claim C8: a resolving event (AUTH_CLEARED, SETTLED, PAYMENT_POSTED, or
PAYMENT_CANCELED) whose id has no pending entry fails with the
no-pending-match error, and one whose first matching pending entry has the
opposite class fails with the class-mismatch error; an error result carries
no state, so no balance or list is changed. -/
theorem C8_resolving (s : CreditAccount) (t : CreditCardTransaction)
    (hk : t.txn_type = .AUTH_CLEARED ∨ t.txn_type = .SETTLED ∨
          t.txn_type = .PAYMENT_POSTED ∨ t.txn_type = .PAYMENT_CANCELED) :
    (s.pending_txns.find? (fun q => q.txn_id == t.txn_id) = none →
      s.process_txn t = .error .noPendingMatch) ∧
    (∀ p, s.pending_txns.find? (fun q => q.txn_id == t.txn_id) = some p →
      p.txn_type.get_class ≠ t.txn_type.get_class →
      s.process_txn t = .error .classMismatch) := by
  constructor
  · intro h
    have hf : s.find_pending t = .error .noPendingMatch := by
      simp [CreditAccount.find_pending, h]
    rcases hk with h1 | h1 | h1 | h1 <;>
      simp [CreditAccount.process_txn, h1, hf]
  · intro p hp hc
    have hf : s.find_pending t = .error .classMismatch := by
      simp [CreditAccount.find_pending, hp, hc]
    rcases hk with h1 | h1 | h1 | h1 <;>
      simp [CreditAccount.process_txn, h1, hf]

/-- Claim C8, witness: a SETTLED event on an empty pending list fails with
the no-pending-match error, and a SETTLED event whose id is pending as a
PAYMENT initiation fails with the class-mismatch error. -/
theorem C8_witness :
    (CreditAccount.initial 100).process_txn
      ⟨.SETTLED, "x", 1, some 5, none⟩ = .error .noPendingMatch ∧
    CreditAccount.process_txn
      ⟨100, 100, -10, [⟨.PAYMENT_INIT, "p1", 1, some (-10), none⟩], [], ["p1"]⟩
      ⟨.SETTLED, "p1", 2, some 10, none⟩ = .error .classMismatch :=
  ⟨(C8_resolving (CreditAccount.initial 100)
      ⟨.SETTLED, "x", 1, some 5, none⟩ (Or.inr (Or.inl rfl))).1 (by decide),
   (C8_resolving
      ⟨100, 100, -10, [⟨.PAYMENT_INIT, "p1", 1, some (-10), none⟩], [], ["p1"]⟩
      ⟨.SETTLED, "p1", 2, some 10, none⟩ (Or.inr (Or.inl rfl))).2
      ⟨.PAYMENT_INIT, "p1", 1, some (-10), none⟩ (by decide) (by decide)⟩

end Pomelo

namespace Pomelo

/-! ### Inversion lemmas: what a successful application of each kind means -/

theorem find_pending_ok {s : CreditAccount} {t p : CreditCardTransaction}
    (h : s.find_pending t = .ok p) :
    s.pending_txns.find? (fun q => q.txn_id == t.txn_id) = some p ∧
    p.txn_type.get_class = t.txn_type.get_class := by
  unfold CreditAccount.find_pending at h
  rcases hf : s.pending_txns.find? (fun q => q.txn_id == t.txn_id) with _ | q
  · simp only [hf] at h
    exact Except.noConfusion h
  · by_cases hc : q.txn_type.get_class = t.txn_type.get_class
    · simp only [hf, hc, if_true, Except.ok.injEq] at h
      subst h
      exact ⟨hf, hc⟩
    · simp only [hf, hc, if_false] at h
      exact Except.noConfusion h

theorem process_txn_authed_ok {s s' : CreditAccount}
    {t : CreditCardTransaction} (h1 : t.txn_type = .AUTHED)
    (h : s.process_txn t = .ok s') :
    ∃ a, t.amount = some a ∧ t.txn_id ∉ s.previos_txn_ids ∧
      a ≤ s.available_credit ∧
      s' = { s with
        available_credit := s.available_credit - a
        pending_txns := s.pending_txns ++ [t]
        previos_txn_ids := t.txn_id :: s.previos_txn_ids } := by
  by_cases hm : t.txn_id ∈ s.previos_txn_ids
  · simp [CreditAccount.process_txn, h1,
      CreditAccount.ensure_txn_id_unique, hm] at h
  · rcases ha : t.amount with _ | a
    · simp [CreditAccount.process_txn, h1,
        CreditAccount.ensure_txn_id_unique, hm, ha] at h
    · by_cases hlt : s.available_credit < a
      · simp [CreditAccount.process_txn, h1,
          CreditAccount.ensure_txn_id_unique, hm, ha, hlt] at h
      · simp only [CreditAccount.process_txn, h1,
          CreditAccount.ensure_txn_id_unique, hm, if_false, ha, hlt,
          if_neg hlt, ite_false, Except.ok.injEq] at h
        exact ⟨a, rfl, hm, not_lt.mp hlt, h.symm⟩

theorem process_txn_payment_init_ok {s s' : CreditAccount}
    {t : CreditCardTransaction} (h1 : t.txn_type = .PAYMENT_INIT)
    (h : s.process_txn t = .ok s') :
    ∃ a, t.amount = some a ∧ t.txn_id ∉ s.previos_txn_ids ∧
      -a ≤ s.payable_balance ∧
      s' = { s with
        payable_balance := s.payable_balance + a
        pending_txns := s.pending_txns ++ [t]
        previos_txn_ids := t.txn_id :: s.previos_txn_ids } := by
  by_cases hm : t.txn_id ∈ s.previos_txn_ids
  · simp [CreditAccount.process_txn, h1,
      CreditAccount.ensure_txn_id_unique, hm] at h
  · rcases ha : t.amount with _ | a
    · simp [CreditAccount.process_txn, h1,
        CreditAccount.ensure_txn_id_unique, hm, ha] at h
    · by_cases hlt : s.payable_balance < -a
      · simp [CreditAccount.process_txn, h1,
          CreditAccount.ensure_txn_id_unique, hm, ha, hlt] at h
      · simp only [CreditAccount.process_txn, h1,
          CreditAccount.ensure_txn_id_unique, hm, if_false, ha, hlt,
          if_neg hlt, ite_false, Except.ok.injEq] at h
        exact ⟨a, rfl, hm, not_lt.mp hlt, h.symm⟩

theorem process_txn_settled_ok {s s' : CreditAccount}
    {t : CreditCardTransaction} (h1 : t.txn_type = .SETTLED)
    (h : s.process_txn t = .ok s') :
    ∃ p pa, s.find_pending t = .ok p ∧ p.amount = some pa ∧
      s' = { s with
        available_credit := s.available_credit + pa - t.amount.getD pa
        payable_balance := s.payable_balance + t.amount.getD pa
        pending_txns := s.pending_txns.eraseP (fun q => q.txn_id == t.txn_id)
        settled_txns := s.settled_txns ++ [t.record_pending_txn p] } := by
  rcases hf : s.find_pending t with e | p
  · simp [CreditAccount.process_txn, h1, hf] at h
  · rcases ha : p.amount with _ | pa
    · simp [CreditAccount.process_txn, h1, hf, ha] at h
    · simp only [CreditAccount.process_txn, h1, hf, ha,
        Except.ok.injEq] at h
      exact ⟨p, pa, rfl, ha, h.symm⟩

theorem process_txn_auth_cleared_ok {s s' : CreditAccount}
    {t : CreditCardTransaction} (h1 : t.txn_type = .AUTH_CLEARED)
    (h : s.process_txn t = .ok s') :
    ∃ p pa, s.find_pending t = .ok p ∧ p.amount = some pa ∧
      s' = { s with
        available_credit := s.available_credit + pa
        pending_txns :=
          s.pending_txns.eraseP (fun q => q.txn_id == t.txn_id) } := by
  rcases hf : s.find_pending t with e | p
  · simp [CreditAccount.process_txn, h1, hf] at h
  · rcases ha : p.amount with _ | pa
    · simp [CreditAccount.process_txn, h1, hf, ha] at h
    · simp only [CreditAccount.process_txn, h1, hf, ha,
        Except.ok.injEq] at h
      exact ⟨p, pa, rfl, ha, h.symm⟩

theorem process_txn_payment_posted_ok {s s' : CreditAccount}
    {t : CreditCardTransaction} (h1 : t.txn_type = .PAYMENT_POSTED)
    (h : s.process_txn t = .ok s') :
    ∃ p pa, s.find_pending t = .ok p ∧ p.amount = some pa ∧
      s' = { s with
        available_credit := s.available_credit - pa
        pending_txns := s.pending_txns.eraseP (fun q => q.txn_id == t.txn_id)
        settled_txns := s.settled_txns ++ [t.record_pending_txn p] } := by
  rcases hf : s.find_pending t with e | p
  · simp [CreditAccount.process_txn, h1, hf] at h
  · rcases ha : p.amount with _ | pa
    · simp [CreditAccount.process_txn, h1, hf, ha] at h
    · simp only [CreditAccount.process_txn, h1, hf, ha,
        Except.ok.injEq] at h
      exact ⟨p, pa, rfl, ha, h.symm⟩

theorem process_txn_payment_canceled_ok {s s' : CreditAccount}
    {t : CreditCardTransaction} (h1 : t.txn_type = .PAYMENT_CANCELED)
    (h : s.process_txn t = .ok s') :
    ∃ p pa, s.find_pending t = .ok p ∧ p.amount = some pa ∧
      s' = { s with
        payable_balance := s.payable_balance - pa
        pending_txns :=
          s.pending_txns.eraseP (fun q => q.txn_id == t.txn_id) } := by
  rcases hf : s.find_pending t with e | p
  · simp [CreditAccount.process_txn, h1, hf] at h
  · rcases ha : p.amount with _ | pa
    · simp [CreditAccount.process_txn, h1, hf, ha] at h
    · simp only [CreditAccount.process_txn, h1, hf, ha,
        Except.ok.injEq] at h
      exact ⟨p, pa, rfl, ha, h.symm⟩

end Pomelo

namespace Pomelo

/-! ### Conservation (claim C2) -/

theorem sumOfClass_append (c : TransactionClass)
    (l1 l2 : List CreditCardTransaction) :
    sumOfClass c (l1 ++ l2) = sumOfClass c l1 + sumOfClass c l2 := by
  induction l1 with
  | nil => simp [sumOfClass]
  | cons t ts ih =>
      simp only [List.cons_append, sumOfClass, List.append_eq, ih]
      ring

theorem sumOfClass_eraseP (c : TransactionClass)
    (pred : CreditCardTransaction → Bool) :
    ∀ (l : List CreditCardTransaction) (p : CreditCardTransaction),
      l.find? pred = some p →
      sumOfClass c (l.eraseP pred) =
        sumOfClass c l -
          (if p.txn_type.get_class = c then p.amount.getD 0 else 0)
  | [], p, h => by simp at h
  | x :: xs, p, h => by
      by_cases hx : pred x
      · rw [List.find?_cons_of_pos _ hx, Option.some.injEq] at h
        subst h
        rw [List.eraseP_cons_of_pos hx]
        simp only [sumOfClass]
        ring
      · rw [List.find?_cons_of_neg _ hx] at h
        rw [List.eraseP_cons_of_neg hx]
        simp only [sumOfClass, sumOfClass_eraseP c pred xs p h]
        ring

theorem process_txn_credit_limit {s s' : CreditAccount}
    {t : CreditCardTransaction} (h : s.process_txn t = .ok s') :
    s'.credit_limit = s.credit_limit := by
  cases h1 : t.txn_type
  · obtain ⟨a, _, _, _, rfl⟩ := process_txn_authed_ok h1 h; rfl
  · obtain ⟨p, pa, _, _, rfl⟩ := process_txn_settled_ok h1 h; rfl
  · obtain ⟨p, pa, _, _, rfl⟩ := process_txn_auth_cleared_ok h1 h; rfl
  · obtain ⟨a, _, _, _, rfl⟩ := process_txn_payment_init_ok h1 h; rfl
  · obtain ⟨p, pa, _, _, rfl⟩ := process_txn_payment_posted_ok h1 h; rfl
  · obtain ⟨p, pa, _, _, rfl⟩ := process_txn_payment_canceled_ok h1 h; rfl

theorem process_txn_conserves {s s' : CreditAccount}
    {t : CreditCardTransaction} (hs : conserves s)
    (h : s.process_txn t = .ok s') : conserves s' := by
  unfold conserves at hs ⊢
  cases h1 : t.txn_type
  case AUTHED =>
    obtain ⟨a, ha, _, _, rfl⟩ := process_txn_authed_ok h1 h
    simp only [sumOfClass_append, sumOfClass, h1, TransactionType.get_class,
      ha, Option.getD_some]
    simp only [reduceCtorEq, if_true, if_false, reduceIte]
    omega
  case PAYMENT_INIT =>
    obtain ⟨a, ha, _, _, rfl⟩ := process_txn_payment_init_ok h1 h
    simp only [sumOfClass_append, sumOfClass, h1, TransactionType.get_class,
      ha, Option.getD_some]
    simp only [reduceCtorEq, if_true, if_false, reduceIte]
    omega
  case SETTLED =>
    obtain ⟨p, pa, hf, hpa, rfl⟩ := process_txn_settled_ok h1 h
    obtain ⟨hfind, hcls⟩ := find_pending_ok hf
    rw [h1] at hcls
    have e1 := sumOfClass_eraseP .CREDIT _ _ _ hfind
    have e2 := sumOfClass_eraseP .PAYMENT _ _ _ hfind
    rw [hcls, hpa] at e1 e2
    simp only [TransactionType.get_class, Option.getD_some, if_true,
      reduceCtorEq, if_false, reduceIte, sub_zero] at e1 e2
    simp only [e1, e2]
    omega
  case AUTH_CLEARED =>
    obtain ⟨p, pa, hf, hpa, rfl⟩ := process_txn_auth_cleared_ok h1 h
    obtain ⟨hfind, hcls⟩ := find_pending_ok hf
    rw [h1] at hcls
    have e1 := sumOfClass_eraseP .CREDIT _ _ _ hfind
    have e2 := sumOfClass_eraseP .PAYMENT _ _ _ hfind
    rw [hcls, hpa] at e1 e2
    simp only [TransactionType.get_class, Option.getD_some, if_true,
      reduceCtorEq, if_false, reduceIte, sub_zero] at e1 e2
    simp only [e1, e2]
    omega
  case PAYMENT_POSTED =>
    obtain ⟨p, pa, hf, hpa, rfl⟩ := process_txn_payment_posted_ok h1 h
    obtain ⟨hfind, hcls⟩ := find_pending_ok hf
    rw [h1] at hcls
    have e1 := sumOfClass_eraseP .CREDIT _ _ _ hfind
    have e2 := sumOfClass_eraseP .PAYMENT _ _ _ hfind
    rw [hcls, hpa] at e1 e2
    simp only [TransactionType.get_class, Option.getD_some, if_true,
      reduceCtorEq, if_false, reduceIte, sub_zero] at e1 e2
    simp only [e1, e2]
    omega
  case PAYMENT_CANCELED =>
    obtain ⟨p, pa, hf, hpa, rfl⟩ := process_txn_payment_canceled_ok h1 h
    obtain ⟨hfind, hcls⟩ := find_pending_ok hf
    rw [h1] at hcls
    have e1 := sumOfClass_eraseP .CREDIT _ _ _ hfind
    have e2 := sumOfClass_eraseP .PAYMENT _ _ _ hfind
    rw [hcls, hpa] at e1 e2
    simp only [TransactionType.get_class, Option.getD_some, if_true,
      reduceCtorEq, if_false, reduceIte, sub_zero] at e1 e2
    simp only [e1, e2]
    omega

theorem process_txns_conserves :
    ∀ (ts : List CreditCardTransaction) {s s' : CreditAccount},
      conserves s → s.process_txns ts = .ok s' → conserves s'
  | [], s, s', hs, h => by
      simp only [CreditAccount.process_txns, Except.ok.injEq] at h
      exact h ▸ hs
  | t :: ts, s, s', hs, h => by
      simp only [CreditAccount.process_txns] at h
      rcases hp : s.process_txn t with e | s1
      · rw [hp] at h; exact Except.noConfusion h
      · rw [hp] at h
        exact process_txns_conserves ts (process_txn_conserves hs hp) h

theorem initial_conserves (L : Int) : conserves (CreditAccount.initial L) := by
  simp [conserves, CreditAccount.initial, sumOfClass]

end Pomelo

namespace Pomelo

theorem process_txns_credit_limit :
    ∀ (ts : List CreditCardTransaction) {s s' : CreditAccount},
      s.process_txns ts = .ok s' → s'.credit_limit = s.credit_limit
  | [], s, s', h => by
      simp only [CreditAccount.process_txns, Except.ok.injEq] at h
      exact h ▸ rfl
  | t :: ts, s, s', h => by
      simp only [CreditAccount.process_txns] at h
      rcases hp : s.process_txn t with e | s1
      · rw [hp] at h; exact Except.noConfusion h
      · rw [hp] at h
        rw [process_txns_credit_limit ts h, process_txn_credit_limit hp]

/-- Claim C2 (amended): after every successful prefix of a replay from the
initial state — in particular immediately after each successful AUTHORIZED,
AUTH_CLEARED, or SETTLED application — the conserved quantity is
`available_credit + sum(pending CREDIT amounts) - sum(pending PAYMENT
amounts) + payable_balance = credit_limit`; the claim's version without the
payable-balance and pending-payment terms fails after a SETTLED. -/
theorem C2_conservation (L : Int) (ts : List CreditCardTransaction)
    (s : CreditAccount)
    (h : (CreditAccount.initial L).process_txns ts = .ok s) :
    s.available_credit + sumOfClass .CREDIT s.pending_txns
      - sumOfClass .PAYMENT s.pending_txns + s.payable_balance = L := by
  have hc := process_txns_conserves ts (initial_conserves L) h
  have hl : s.credit_limit = L := process_txns_credit_limit ts h
  unfold conserves at hc
  rw [hl] at hc
  exact hc

/-- Claim C2, witness: the conservation equality evaluated on the state
reached by AUTHORIZED 100 then SETTLED 100 on a limit-1000 account. -/
theorem C2_conservation_witness :
    (900 : Int) + sumOfClass .CREDIT ([] : List CreditCardTransaction)
      - sumOfClass .PAYMENT ([] : List CreditCardTransaction) + 100 = 1000 :=
  C2_conservation 1000
    [⟨.AUTHED, "a1", 1, some 100, none⟩, ⟨.SETTLED, "a1", 2, some 100, none⟩]
    ⟨1000, 900, 100, [], [⟨.SETTLED, "a1", 2, some 100, some 1⟩], ["a1"]⟩ rfl

/-! ### Permanent id reservation (claim C4) -/

theorem process_txn_previos_mono {s s' : CreditAccount}
    {t : CreditCardTransaction} (h : s.process_txn t = .ok s') :
    ∀ i, i ∈ s.previos_txn_ids → i ∈ s'.previos_txn_ids := by
  cases h1 : t.txn_type
  case AUTHED =>
    obtain ⟨a, _, _, _, rfl⟩ := process_txn_authed_ok h1 h
    exact fun i hi => List.mem_cons_of_mem _ hi
  case PAYMENT_INIT =>
    obtain ⟨a, _, _, _, rfl⟩ := process_txn_payment_init_ok h1 h
    exact fun i hi => List.mem_cons_of_mem _ hi
  case SETTLED =>
    obtain ⟨p, pa, _, _, rfl⟩ := process_txn_settled_ok h1 h
    exact fun i hi => hi
  case AUTH_CLEARED =>
    obtain ⟨p, pa, _, _, rfl⟩ := process_txn_auth_cleared_ok h1 h
    exact fun i hi => hi
  case PAYMENT_POSTED =>
    obtain ⟨p, pa, _, _, rfl⟩ := process_txn_payment_posted_ok h1 h
    exact fun i hi => hi
  case PAYMENT_CANCELED =>
    obtain ⟨p, pa, _, _, rfl⟩ := process_txn_payment_canceled_ok h1 h
    exact fun i hi => hi

theorem process_txns_previos_mono :
    ∀ (ts : List CreditCardTransaction) {s s' : CreditAccount},
      s.process_txns ts = .ok s' →
      ∀ i, i ∈ s.previos_txn_ids → i ∈ s'.previos_txn_ids
  | [], s, s', h => by
      simp only [CreditAccount.process_txns, Except.ok.injEq] at h
      exact h ▸ fun i hi => hi
  | t :: ts, s, s', h => by
      simp only [CreditAccount.process_txns] at h
      rcases hp : s.process_txn t with e | s1
      · rw [hp] at h; exact Except.noConfusion h
      · rw [hp] at h
        exact fun i hi =>
          process_txns_previos_mono ts h i (process_txn_previos_mono hp i hi)

theorem process_txn_opener_mem {s s' : CreditAccount}
    {t : CreditCardTransaction}
    (hk : t.txn_type = .AUTHED ∨ t.txn_type = .PAYMENT_INIT)
    (h : s.process_txn t = .ok s') : t.txn_id ∈ s'.previos_txn_ids := by
  rcases hk with h1 | h1
  · obtain ⟨a, _, _, _, rfl⟩ := process_txn_authed_ok h1 h
    exact List.mem_cons_self _ _
  · obtain ⟨a, _, _, _, rfl⟩ := process_txn_payment_init_ok h1 h
    exact List.mem_cons_self _ _

theorem process_txn_opener_dup {s : CreditAccount}
    {t : CreditCardTransaction}
    (hk : t.txn_type = .AUTHED ∨ t.txn_type = .PAYMENT_INIT)
    (hm : t.txn_id ∈ s.previos_txn_ids) :
    s.process_txn t = .error .duplicateId := by
  rcases hk with h1 | h1 <;>
    simp [CreditAccount.process_txn, h1,
      CreditAccount.ensure_txn_id_unique, hm]

/-- Claim C4: once an opening event (AUTHORIZED or PAYMENT_INITIATED) has
been applied successfully, its id stays in the seen-id set through any
further successfully processed events (including ones that fully resolve
the transaction), so a later opening event reusing the id fails with the
duplicate-id error. -/
theorem C4_permanent_ids (s s1 s2 : CreditAccount)
    (t0 t : CreditCardTransaction) (ts : List CreditCardTransaction)
    (h0 : t0.txn_type = .AUTHED ∨ t0.txn_type = .PAYMENT_INIT)
    (h1 : s.process_txn t0 = .ok s1)
    (h2 : s1.process_txns ts = .ok s2)
    (hk : t.txn_type = .AUTHED ∨ t.txn_type = .PAYMENT_INIT)
    (hid : t.txn_id = t0.txn_id) :
    s2.process_txn t = .error .duplicateId := by
  apply process_txn_opener_dup hk
  rw [hid]
  exact process_txns_previos_mono ts h2 t0.txn_id (process_txn_opener_mem h0 h1)

/-- Claim C4, witness: open a1 by AUTHORIZED, fully resolve it by SETTLED,
then a second AUTHORIZED with id a1 fails with the duplicate-id error. -/
theorem C4_permanent_ids_witness :
    CreditAccount.process_txn
      ⟨1000, 900, 100, [], [⟨.SETTLED, "a1", 2, some 100, some 1⟩], ["a1"]⟩
      ⟨.AUTHED, "a1", 3, some 50, none⟩ = .error .duplicateId :=
  C4_permanent_ids (CreditAccount.initial 1000)
    ⟨1000, 900, 0, [⟨.AUTHED, "a1", 1, some 100, none⟩], [], ["a1"]⟩
    ⟨1000, 900, 100, [], [⟨.SETTLED, "a1", 2, some 100, some 1⟩], ["a1"]⟩
    ⟨.AUTHED, "a1", 1, some 100, none⟩
    ⟨.AUTHED, "a1", 3, some 50, none⟩
    [⟨.SETTLED, "a1", 2, some 100, none⟩]
    (Or.inl rfl) rfl rfl (Or.inl rfl) rfl

end Pomelo

namespace Pomelo

/-- Claim C1 (amended): a successful SETTLED or PAYMENT_POSTED appends a
settled record whose amount is the resolving event's own amount when that is
present, and the opener's amount only when the resolving event's amount is
absent (`t.amount.or p.amount`); the timestamps are (opener's time as
`initial_time`, resolving event's time as `time`). -/
theorem C1_settled_record (s s' : CreditAccount)
    (t p : CreditCardTransaction)
    (hk : t.txn_type = .SETTLED ∨ t.txn_type = .PAYMENT_POSTED)
    (hf : s.find_pending t = .ok p)
    (h : s.process_txn t = .ok s') :
    s'.settled_txns = s.settled_txns ++
      [{ t with amount := t.amount.or p.amount,
                initial_time := some p.time }] := by
  rcases hk with h1 | h1
  · obtain ⟨q, pa, hfq, hpa, rfl⟩ := process_txn_settled_ok h1 h
    rw [hf, Except.ok.injEq] at hfq
    subst hfq
    rfl
  · obtain ⟨q, pa, hfq, hpa, rfl⟩ := process_txn_payment_posted_ok h1 h
    rw [hf, Except.ok.injEq] at hfq
    subst hfq
    rfl

/-- Claim C1, witness: settling pending (a1, amount 100, time 1) with an
explicit SETTLED amount 250 at time 2 appends a settled record with amount
250, `initial_time` 1 and `time` 2. -/
theorem C1_settled_record_witness :
    (CreditAccount.mk 1000 750 250 []
        [⟨.SETTLED, "a1", 2, some 250, some 1⟩] ["a1"]).settled_txns
      = [] ++ [⟨.SETTLED, "a1", 2, some 250, some 1⟩] :=
  C1_settled_record
    ⟨1000, 900, 0, [⟨.AUTHED, "a1", 1, some 100, none⟩], [], ["a1"]⟩
    ⟨1000, 750, 250, [], [⟨.SETTLED, "a1", 2, some 250, some 1⟩], ["a1"]⟩
    ⟨.SETTLED, "a1", 2, some 250, none⟩
    ⟨.AUTHED, "a1", 1, some 100, none⟩
    (Or.inl rfl) rfl rfl

/-- Claim C9 (amended): the parser never fails because of a missing amount;
for a record with no amount field it succeeds exactly when the event-type
string parses, and the produced Event's amount is unset for every kind. -/
theorem C9_missing_amount (r : RawTransaction) (h : r.amount = none) :
    (CreditCardTransaction.from_json r).isOk
        = (TransactionType.parse r.eventType).isOk ∧
    ∀ t, CreditCardTransaction.from_json r = .ok t → t.amount = none := by
  unfold CreditCardTransaction.from_json
  rcases hp : TransactionType.parse r.eventType with e | ty
  · exact ⟨rfl, fun t ht => Except.noConfusion ht⟩
  · refine ⟨rfl, fun t ht => ?_⟩
    injection ht with ht
    rw [← ht]
    exact h

/-- Claim C9, witness: a TXN_AUTHED record with no amount field parses as
successfully as its event-type string does, producing amount unset. -/
theorem C9_missing_amount_witness :
    (CreditCardTransaction.from_json ⟨"TXN_AUTHED", "a1", 1, none⟩).isOk
        = (TransactionType.parse "TXN_AUTHED").isOk ∧
    (⟨.AUTHED, "a1", 1, none, none⟩ : CreditCardTransaction).amount = none :=
  ⟨(C9_missing_amount ⟨"TXN_AUTHED", "a1", 1, none⟩ rfl).1,
   (C9_missing_amount ⟨"TXN_AUTHED", "a1", 1, none⟩ rfl).2
     ⟨.AUTHED, "a1", 1, none, none⟩ rfl⟩

/-- Claim C10 (amended): an AUTHORIZED event with a negative amount and an
unused id is accepted provided the amount does not fall below
`available_credit` (which always holds when `available_credit ≥ 0`), and it
strictly increases `available_credit`; there is an event stream (a single
AUTHORIZED of -100 at limit 500) after which `available_credit` (600)
exceeds the credit limit — there is no sign check and no upper cap. -/
theorem C10_negative_auth (s : CreditAccount) (t : CreditCardTransaction)
    (a : Int) (h1 : t.txn_type = .AUTHED) (h2 : t.txn_id ∉ s.previos_txn_ids)
    (h3 : t.amount = some a) (h4 : a < 0) (h5 : a ≤ s.available_credit) :
    (s.process_txn t = .ok { s with
        available_credit := s.available_credit - a
        pending_txns := s.pending_txns ++ [t]
        previos_txn_ids := t.txn_id :: s.previos_txn_ids } ∧
      s.available_credit < s.available_credit - a) ∧
    (process_account 500 [⟨.AUTHED, "b1", 1, some (-100), none⟩]).map
        (fun st => st.available_credit) = .ok 600 ∧
    (500 : Int) < 600 := by
  refine ⟨⟨?_, by omega⟩, rfl, by omega⟩
  rw [process_txn_authed h1 h2 h3, if_neg (not_lt.mpr h5)]

/-- Claim C10, witness: from the initial limit-500 state, AUTHORIZED of
-100 is accepted and raises `available_credit` to 600 > 500. -/
theorem C10_negative_auth_witness :
    (CreditAccount.initial 500).process_txn
        ⟨.AUTHED, "a1", 1, some (-100), none⟩ =
      .ok ⟨500, 600, 0, [⟨.AUTHED, "a1", 1, some (-100), none⟩], [], ["a1"]⟩ ∧
    (500 : Int) < 600 :=
  ⟨((C10_negative_auth (CreditAccount.initial 500)
      ⟨.AUTHED, "a1", 1, some (-100), none⟩ (-100) rfl (by decide) rfl
      (by decide) (by decide)).1).1, by decide⟩

end Pomelo

namespace Pomelo

/-! ### Stability of the summary sort (claim C3) -/

theorem filter_time_orderedInsert (v : Int) (a : CreditCardTransaction) :
    ∀ l : List CreditCardTransaction,
      (List.orderedInsert timeGE a l).filter (fun x => x.time == v)
        = ((a :: l).filter (fun x => x.time == v))
  | [] => rfl
  | b :: l => by
      have ih := filter_time_orderedInsert v a l
      by_cases hab : timeGE a b
      · simp only [List.orderedInsert, if_pos hab]
      · simp only [List.orderedInsert, if_neg hab]
        unfold timeGE at hab
        push_neg at hab
        simp only [List.filter_cons, ih, beq_iff_eq]
        by_cases hb : b.time = v
        · by_cases ha : a.time = v
          · exact (show False by omega).elim
          · simp [hb, ha]
        · by_cases ha : a.time = v
          · simp [hb, ha]
          · simp [hb, ha]

theorem filter_time_insertionSort (v : Int) :
    ∀ l : List CreditCardTransaction,
      (l.insertionSort timeGE).filter (fun x => x.time == v)
        = l.filter (fun x => x.time == v)
  | [] => rfl
  | b :: l => by
      simp only [List.insertionSort, filter_time_orderedInsert,
        List.filter_cons, filter_time_insertionSort v l]

/-- Claim C3 (amended): the summary's settled list has at most 3 entries,
is sorted by resolve timestamp descending, and among entries with any one
fixed resolve timestamp it preserves settlement-processing order (it is an
in-order sublist of the accumulated settled list restricted to that
timestamp) — ties are broken by processing order, not its reverse. -/
theorem C3_summary (s : CreditAccount) (v : Int) :
    s.get_summary.recent_settled_txns.length ≤ 3 ∧
    List.Sorted timeGE s.get_summary.recent_settled_txns ∧
    (s.get_summary.recent_settled_txns.filter
        (fun x => x.time == v)).Sublist
      (s.settled_txns.filter (fun x => x.time == v)) := by
  unfold CreditAccount.get_summary
  refine ⟨?_, ?_, ?_⟩
  · exact List.length_take_le 3 _
  · exact List.Pairwise.sublist (List.take_sublist 3 _)
      (List.sorted_insertionSort timeGE s.settled_txns)
  · have h1 :=
      (List.take_sublist 3 (s.settled_txns.insertionSort timeGE)).filter
        (fun x => x.time == v)
    rw [filter_time_insertionSort v s.settled_txns] at h1
    exact h1

/-! ### Order independence for distinct timestamps (claim C5) -/

/-- Claim C5 (amended): two input lists that are permutations of each other
with pairwise-distinct timestamps produce identical results (identical final
state or identical error); with tied timestamps the stable sort preserves
input order, so the claim as stated fails. -/
theorem C5_order_independence (L : Int)
    (ts1 ts2 : List CreditCardTransaction) (hp : ts1.Perm ts2)
    (hd : (ts1.map (fun t => t.time)).Nodup) :
    process_account L ts1 = process_account L ts2 := by
  unfold process_account
  by_cases hl : L ≤ 0
  · rw [if_pos hl, if_pos hl]
  · rw [if_neg hl, if_neg hl]
    congr 1
    have hs1 := List.sorted_insertionSort timeLE ts1
    have hs2 := List.sorted_insertionSort timeLE ts2
    have hperm : (ts1.insertionSort timeLE).Perm (ts2.insertionSort timeLE) :=
      (List.perm_insertionSort timeLE ts1).trans
        (hp.trans (List.perm_insertionSort timeLE ts2).symm)
    have hsym : ∀ {x y : CreditCardTransaction},
        x.time ≠ y.time → y.time ≠ x.time := fun h => h.symm
    have hne0 : ts1.Pairwise (fun a b => a.time ≠ b.time) :=
      List.pairwise_map.mp hd
    have hne1 : (ts1.insertionSort timeLE).Pairwise
        (fun a b => a.time ≠ b.time) :=
      ((List.perm_insertionSort timeLE ts1).pairwise_iff hsym).mpr hne0
    have hne2 : (ts2.insertionSort timeLE).Pairwise
        (fun a b => a.time ≠ b.time) :=
      (hperm.pairwise_iff hsym).mp hne1
    have hlt1 : (ts1.insertionSort timeLE).Pairwise
        (fun a b => a.time < b.time) :=
      (List.Pairwise.and hs1 hne1).imp fun h => lt_of_le_of_ne h.1 h.2
    have hlt2 : (ts2.insertionSort timeLE).Pairwise
        (fun a b => a.time < b.time) :=
      (List.Pairwise.and hs2 hne2).imp fun h => lt_of_le_of_ne h.1 h.2
    haveI : IsAntisymm CreditCardTransaction
        (fun a b => a.time < b.time) :=
      ⟨fun _ _ h1 h2 => (show False by omega).elim⟩
    exact List.eq_of_perm_of_sorted hperm hlt1 hlt2

/-- Claim C5, witness: the two orders of two distinct-timestamp AUTHORIZED
events give identical final results. -/
theorem C5_order_independence_witness :
    ([⟨.AUTHED, "a1", 1, some 10, none⟩,
      ⟨.AUTHED, "a2", 2, some 20, none⟩] :
        List CreditCardTransaction).Perm
      [⟨.AUTHED, "a2", 2, some 20, none⟩,
       ⟨.AUTHED, "a1", 1, some 10, none⟩] ∧
    process_account 1000
        [⟨.AUTHED, "a1", 1, some 10, none⟩,
         ⟨.AUTHED, "a2", 2, some 20, none⟩] =
      process_account 1000
        [⟨.AUTHED, "a2", 2, some 20, none⟩,
         ⟨.AUTHED, "a1", 1, some 10, none⟩] :=
  ⟨by decide, C5_order_independence 1000 _ _ (by decide) (by decide)⟩

end Pomelo
